import Mathlib

/-!
# Verification of patch-detector (detector.py, resolver.py, runner.py)

A shallow embedding of the patch-detector program.  Python strings are
Lean `String`s, line numbers are `Option Nat` (Python `None`/`int`),
raised exceptions and failed assertions are `Except String`, and the
external git repository is an abstract record of query functions.

Layout: definitions (translated from the source, except the two
definitions explicitly marked as modelled from the spec's words), then
helper lemmas, then one theorem per claim.
-/

set_option autoImplicit false

/-! ## Python string primitives

`str.split()` (no argument) splits on runs of whitespace and discards
empty fields; `str.strip()` removes leading and trailing whitespace.
Python's whitespace set for these operations is space, tab, newline,
carriage return, vertical tab and form feed. -/

def isPySpace (c : Char) : Bool :=
  c = ' ' || c = '\t' || c = '\n' || c = '\r' || c = Char.ofNat 11 || c = Char.ofNat 12

def pySplitGo : List Char → List Char → List String
  | [], acc => if acc.isEmpty then [] else [String.mk acc.reverse]
  | c :: rest, acc =>
    if isPySpace c then
      if acc.isEmpty then pySplitGo rest []
      else String.mk acc.reverse :: pySplitGo rest []
    else pySplitGo rest (c :: acc)

/-- Python `s.split()` with no separator argument. -/
def pySplit (s : String) : List String := pySplitGo s.toList []

/-- Python `s.strip()` with no argument. -/
def pyStrip (s : String) : String :=
  String.mk (((s.toList.dropWhile isPySpace).reverse.dropWhile isPySpace).reverse)

/-! ## detector.py: the matching primitive

`detector.compare` (detector.py lines 38-39):

    def compare(first, second):
        return all(token in second.strip().split() for token in first.strip().split())
-/

namespace detector

def compare (first second : String) : Bool :=
  (pySplit (pyStrip first)).all (fun token => decide (token ∈ pySplit (pyStrip second)))

end detector

/-- The whitespace-delimited tokens of a line, as the detector sees them. -/
def lineTokens (s : String) : List String := pySplit (pyStrip s)

/-! ## detector.py: the per-file detection loop body

`detector.run` iterates over the diffs of a patch.  We embed the body of
that loop for one diff.  A parsed change is a whatthepatch triple
`(old_lineno, new_lineno, text)`; Python `None`/`int` becomes
`Option Nat`, and Python truthiness of a line number (`None` and `0` are
falsy) is `truthy`. -/

structure Change where
  old : Option Nat
  new : Option Nat
  text : String
deriving DecidableEq, Inhabited

structure FileDiff where
  path : String
  old_path : String
  status : String
  changes : List Change
deriving DecidableEq, Inhabited

def truthy : Option Nat → Bool
  | none => false
  | some n => n != 0

/-- Python `s.isspace()`: nonempty and all characters whitespace. -/
def pyIsSpaceStr (s : String) : Bool := !s.isEmpty && s.toList.all isPySpace

/-- The state built by the change-classification loop of `detector.run`
(detector.py lines 76-113): the raw addition and deletion texts, and the
last recorded neighbour lines of a change. -/
structure Prep where
  raw_additions : List String
  raw_deletions : List String
  prev_line : Option String
  next_line : Option String
deriving DecidableEq

inductive ChangeKind
  | skip
  | add
  | del
deriving DecidableEq

/-- The `if`/`elif` cascade of detector.py lines 82-113 classifying one
change: blank/whitespace text, unchanged line, or renumbered line with
identical content are ignored; `None`-old with truthy new line number is an
insertion; truthy old with `None`-new is a removal; anything else raises. -/
def classify (c : Change) : Except String ChangeKind :=
  if c.text.isEmpty || pyIsSpaceStr c.text then .ok .skip
  else if c.old == c.new then .ok .skip
  else if truthy c.old && truthy c.new && c.old != c.new then .ok .skip
  else if !truthy c.old && truthy c.new then .ok .add
  else if truthy c.old && !truthy c.new then .ok .del
  else .error "Could not detect change type"

/-- The neighbour-line bookkeeping done for each insertion or removal
(detector.py lines 96-109). -/
def recordNeighbours (all : List Change) (index : Nat) (p : Prep) : Prep :=
  { p with
    prev_line := if 0 < index then some (all.getD (index - 1) default).text else p.prev_line,
    next_line := if index < all.length - 1 then some (all.getD (index + 1) default).text
      else p.next_line }

/-- One pass of `for index, change in enumerate(diff.changes)`
(detector.py lines 82-113). -/
def preprocessGo (all : List Change) : List (Nat × Change) → Prep → Except String Prep
  | [], p => .ok p
  | (index, c) :: rest, p =>
    match classify c with
    | .error e => .error e
    | .ok .skip => preprocessGo all rest p
    | .ok .add =>
      preprocessGo all rest
        (recordNeighbours all index { p with raw_additions := p.raw_additions ++ [c.text] })
    | .ok .del =>
      preprocessGo all rest
        (recordNeighbours all index { p with raw_deletions := p.raw_deletions ++ [c.text] })

def preprocess (changes : List Change) : Except String Prep :=
  preprocessGo changes changes.enum
    { raw_additions := [], raw_deletions := [], prev_line := none, next_line := none }

/-- `additions` (detector.py line 115): raw additions not present verbatim
among the raw deletions. -/
def filteredAdditions (p : Prep) : List String :=
  p.raw_additions.filter (fun x => decide (x ∉ p.raw_deletions))

/-- `deletions` (detector.py line 116). -/
def filteredDeletions (p : Prep) : List String :=
  p.raw_deletions.filter (fun x => decide (x ∉ p.raw_additions))

/-- `one_line_change` (detector.py line 118): computed from the RAW lists,
before the move-filter of lines 115-116. -/
def one_line_change (p : Prep) : Bool :=
  (p.raw_additions.length == 1) ^^ (p.raw_deletions.length == 1)

/-- Whether one change survives the classification cascade as an insertion. -/
def isRawAddition (c : Change) : Bool :=
  match classify c with
  | .ok .add => true
  | _ => false

/-- Whether one change survives the classification cascade as a removal. -/
def isRawDeletion (c : Change) : Bool :=
  match classify c with
  | .ok .del => true
  | _ => false

/-- The one-line-change scan of `detector.run` (detector.py lines 144-154).
`index` is the current position, `fuel` the number of source lines still to
visit; `prev`/`next` are dereferenced exactly where Python evaluates
`prev_line.strip()` / `next_line.strip()`, so a `None` there raises. -/
def oneLineScan (adds dels : List String) (prev next : Option String)
    (source : List String) : Nat → Nat → Except String (Nat × Nat)
  | _, 0 => .ok (0, 0)
  | index, fuel + 1 =>
    prev.elim (.error "AttributeError") fun p =>
      if pyStrip (source.getD index "") = pyStrip p then
        if index + 2 < source.length then
          next.elim (.error "AttributeError") fun nx =>
            if pyStrip (source.getD (index + 2) "") = pyStrip nx then
              if !adds.isEmpty && detector.compare (adds.headD "") (source.getD (index + 1) "") then
                .ok (1, 0)
              else if !dels.isEmpty && !detector.compare (dels.headD "") (source.getD (index + 1) "") then
                .ok (0, 1)
              else oneLineScan adds dels prev next source (index + 1) fuel
            else oneLineScan adds dels prev next source (index + 1) fuel
        else oneLineScan adds dels prev next source (index + 1) fuel
      else oneLineScan adds dels prev next source (index + 1) fuel

def detectOneLine (adds dels : List String) (prev next : Option String)
    (source : List String) : Except String (Nat × Nat) :=
  oneLineScan adds dels prev next source 0 source.length

/-- The general-case scans of `detector.run` (detector.py lines 156-170):
an addition is detected iff some source line matches it (the inner
for/break loop), a deletion is detected iff no source line matches it. -/
def detectGeneral (adds dels : List String) (source : List String) : Nat × Nat :=
  (adds.countP (fun a => source.any (fun line => detector.compare a line)),
   dels.countP (fun d => !source.any (fun line => detector.compare d line)))

/-- The per-file record written into `ratios[diff.header.path]`
(detector.py lines 187-189) together with the per-file counters. -/
structure FileResult where
  detected_additions : Nat
  detected_deletions : Nat
  total_additions : Nat
  total_deletions : Nat
  additions_ratio : Option ℚ
  deletions_ratio : Option ℚ
  status : String
deriving DecidableEq

/-- The body of `detector.run`'s per-diff loop (detector.py lines 71-189)
for one eligible diff.  `content` is the file's lines when the resolved
path exists on disk, `none` when it does not (the `else` of line 171, which
leaves both detected counters at zero but computes totals as usual).  The
two `assert` statements of lines 184-185 become `AssertionError` exits. -/
def runFile (diff : FileDiff) (content : Option (List String)) : Except String FileResult :=
  match preprocess diff.changes with
  | .error e => .error e
  | .ok p =>
    let adds := filteredAdditions p
    let dels := filteredDeletions p
    let counts : Except String (Nat × Nat) :=
      match content with
      | some source =>
        if one_line_change p then detectOneLine adds dels p.prev_line p.next_line source
        else .ok (detectGeneral adds dels source)
      | none => .ok (0, 0)
    match counts with
    | .error e => .error e
    | .ok (da, dd) =>
      if da ≤ adds.length then
        if dd ≤ dels.length then
          .ok
            { detected_additions := da,
              detected_deletions := dd,
              total_additions := adds.length,
              total_deletions := dels.length,
              additions_ratio :=
                if 0 < adds.length then some ((da : ℚ) / (adds.length : ℚ)) else none,
              deletions_ratio :=
                if 0 < dels.length then some ((dd : ℚ) / (dels.length : ℚ)) else none,
              status := diff.status }
        else .error "AssertionError"
      else .error "AssertionError"

/-- Modelled from the spec's words for the one-line-change case: the same
scan as `oneLineScan` but with both anchor tests performed by the
token-containment `match` (patch context line against file line) instead of
stripped string equality; the judgment of line `index + 1` is unchanged.
This definition exists only to be compared against `oneLineScan`, which is
translated from the source. -/
def oneLineScanSpec (adds dels : List String) (prev next : Option String)
    (source : List String) : Nat → Nat → Except String (Nat × Nat)
  | _, 0 => .ok (0, 0)
  | index, fuel + 1 =>
    prev.elim (.error "AttributeError") fun p =>
      if detector.compare p (source.getD index "") then
        if index + 2 < source.length then
          next.elim (.error "AttributeError") fun nx =>
            if detector.compare nx (source.getD (index + 2) "") then
              if !adds.isEmpty && detector.compare (adds.headD "") (source.getD (index + 1) "") then
                .ok (1, 0)
              else if !dels.isEmpty && !detector.compare (dels.headD "") (source.getD (index + 1) "") then
                .ok (0, 1)
              else oneLineScanSpec adds dels prev next source (index + 1) fuel
            else oneLineScanSpec adds dels prev next source (index + 1) fuel
        else oneLineScanSpec adds dels prev next source (index + 1) fuel
      else oneLineScanSpec adds dels prev next source (index + 1) fuel

def detectOneLineSpec (adds dels : List String) (prev next : Option String)
    (source : List String) : Except String (Nat × Nat) :=
  oneLineScanSpec adds dels prev next source 0 source.length

/-! ## resolver.py

`resolve_path(repo, first, second, path)` over an abstract git repository.
Commits are `Nat` identifiers; `Repo.tree c q` is `exists_in_tree` for the
tree of commit `c` (the canonical blob path when the lookup succeeds);
`log_added` is the `git log --all --follow --format=%H --diff-filter=A`
query; `rev_list` the `rev_list(ancestry_path=True, reverse=True)` listing;
`diff a b` the entries of `a.diff(b)`. -/

structure DiffEntry where
  a_path : String
  b_path : String
  deleted_file : Bool
  renamed : Bool
deriving DecidableEq, Inhabited

structure Repo where
  tree : Nat → String → Option String
  is_ancestor : Nat → Nat → Bool
  log_added : String → List Nat
  rev_list : Nat → Nat → List Nat
  diff : Nat → Nat → List DiffEntry

structure WalkState where
  blob_path : String
  result : String
  count : Nat
deriving DecidableEq

/-- The `for diff in prev.diff(commit)` loop of resolver.py lines 74-89:
count the entries whose old path is the tracked path, retarget the tracked
path on a rename, and stop as `deleted` on a deletion. -/
def innerDiffLoop : List DiffEntry → WalkState → WalkState
  | [], s => s
  | d :: rest, s =>
    if d.a_path = s.blob_path then
      let count := s.count + 1
      let rb : String × String :=
        if s.blob_path ≠ d.b_path then ("updated", d.b_path) else (s.result, s.blob_path)
      if d.deleted_file then { blob_path := rb.2, result := "deleted", count := count }
      else innerDiffLoop rest { blob_path := rb.2, result := rb.1, count := count }
    else innerDiffLoop rest s

/-- The forward ancestry walk of resolver.py lines 61-101.  The
rename-detection loop of lines 97-99 only prints and is omitted.  More than
one matching diff entry in a single step raises. -/
def forwardWalk (repo : Repo) : List Nat → Nat → String → String →
    Except String (String × String)
  | [], _prev, blob_path, result => .ok (blob_path, result)
  | commit :: rest, prev, blob_path, result =>
    let s := innerDiffLoop (repo.diff prev commit) ⟨blob_path, result, 0⟩
    if s.result = "deleted" then .ok (s.blob_path, s.result)
    else if s.count > 1 then .error "found more than 1 matching diff"
    else forwardWalk repo rest commit s.blob_path s.result

/-- `resolver.resolve_path` (resolver.py lines 8-122).  The two `assert`
statements (lines 49 and 57) become `AssertionError` exits, and the
explicit `raise` of line 38 its message. -/
def resolve_path (repo : Repo) (first second : Nat) (path : String) :
    Except String (String × String) :=
  if first = second then .ok (path, "unchanged")
  else
    match repo.tree second path with
    | some _ => .ok (path, "unchanged")
    | none =>
      match repo.tree first path with
      | none => .error "Path does not exist in start object"
      | some blob_path =>
        if (repo.log_added path).isEmpty then .error "AssertionError"
        else
          match (repo.log_added path).foldl
              (fun acc r => if repo.is_ancestor r first then some r else acc) none with
          | none => .error "AssertionError"
          | some creation_commit =>
            if repo.is_ancestor first second then
              forwardWalk repo (repo.rev_list first second) first blob_path "missing"
            else if repo.is_ancestor second first then
              if repo.is_ancestor creation_commit second then .ok (blob_path, "unchanged")
              else .ok (blob_path, "missing")
            else .ok (blob_path, "unknown")

/-! ## runner.py

The per-version loop of `run_git` (runner.py lines 124-174).  Versions and
tags are strings; the per-version work (path resolution, checkout and
`detector.run`) is abstracted as `ev`, since the claim settled here is only
about the control flow on a missing tag.  A missing tag raises `ValueError`
(line 133); the handler of lines 164-167 reports the error, sets
`version_results = None` and re-raises, so the accumulated results are
discarded and the whole run aborts — modelled by returning `.error` without
the accumulator. -/

def runGitGo {R : Type} (tags : List String) (ev : String → R) :
    List String → List (String × R) → Except String (List (String × R))
  | [], acc => .ok acc
  | v :: rest, acc =>
    if v ∈ tags then runGitGo tags ev rest (acc ++ [(v, ev v)])
    else .error ("No such version \"" ++ v ++ "\"")

def run_git {R : Type} (tags : List String) (ev : String → R) (versions : List String) :
    Except String (List (String × R)) :=
  runGitGo tags ev versions []

/-- The `result['overall']` record a version's detection produces
(detector.py lines 191-198), as `determine_vulnerability_status` reads it. -/
structure Overall where
  additions : Option ℚ
  deletions : Option ℚ
  confident : Bool
deriving DecidableEq

/-- The value stored in `result['vulnerable']`: Python `False`/`True` or the
string `'indeterminate'`. -/
inductive VulnStatus
  | flag (b : Bool)
  | indeterminate
deriving DecidableEq

set_option linter.unusedVariables false in
/-- `runner.determine_vulnerability_status` (runner.py lines 191-205) for
one version.  Line 201 of the source compares the deletions ratio against
`config.additions_threshold`; the `deletions_threshold` parameter is
accepted (the CLI defines `--deletions-threshold`, default 0.25) but never
read. -/
def determine_vulnerability_status (additions_threshold deletions_threshold : ℚ)
    (result : Overall) : VulnStatus :=
  if result.confident then
    let v := false
    let v := match result.additions with
      | some additions => if additions < additions_threshold then true else v
      | none => v
    let v := match result.deletions with
      | some deletions => if deletions < additions_threshold then true else v
      | none => v
    .flag v
  else .indeterminate

/-! ## Concrete data for witnesses -/

/-- A repository whose two commits are unrelated and both hold path `f`. -/
def repoCx : Repo :=
  { tree := fun _ q => if q = "f" then some "f" else none,
    is_ancestor := fun a b => a == b,
    log_added := fun _ => [1],
    rev_list := fun _ _ => [],
    diff := fun _ _ => [] }

/-- A repository whose two commits are unrelated; path `f` exists only at
commit 1. -/
def repoW : Repo :=
  { tree := fun c q => if c = 1 && q = "f" then some "f" else none,
    is_ancestor := fun a b => a == b,
    log_added := fun _ => [1],
    rev_list := fun _ _ => [],
    diff := fun _ _ => [] }

/-- The file record `runFile` produces for a one-addition diff whose file is
absent on disk. -/
def fileResultW : FileResult :=
  { detected_additions := 0, detected_deletions := 0, total_additions := 1,
    total_deletions := 0,
    additions_ratio := some (((0 : Nat) : ℚ) / ((1 : Nat) : ℚ)),
    deletions_ratio := none, status := "unchanged" }

/-- Two insertions, used by the witness of the one-line-change claim. -/
def changesW : List Change := [⟨none, some 1, "p"⟩, ⟨none, some 2, "q"⟩]

/-- The preprocessing state `preprocess changesW` reaches. -/
def prepW : Prep := ⟨["p", "q"], [], some "p", some "q"⟩

/-- One insertion, used by the witness of the absent-file claim. -/
def diffW : FileDiff := ⟨"g", "g", "unchanged", [⟨none, some 1, "w1"⟩]⟩

/-- The preprocessing state `preprocess diffW.changes` reaches. -/
def prepW2 : Prep := ⟨["w1"], [], none, none⟩

/-! ## Helper lemmas -/

/-- The raw lists the classification loop accumulates are exactly the texts
of the changes the cascade classifies as insertions resp. removals. -/
theorem preprocessGo_raw (all : List Change) :
    ∀ (l : List (Nat × Change)) (p q : Prep), preprocessGo all l p = .ok q →
      q.raw_additions =
        p.raw_additions ++ (l.filter (fun ic => isRawAddition ic.2)).map (fun ic => ic.2.text) ∧
      q.raw_deletions =
        p.raw_deletions ++ (l.filter (fun ic => isRawDeletion ic.2)).map (fun ic => ic.2.text)
  | [], p, q, h => by
    rw [preprocessGo] at h
    cases h
    simp
  | (index, c) :: rest, p, q, h => by
    rw [preprocessGo] at h
    split at h
    · cases h
    next heq =>
      obtain ⟨h1, h2⟩ := preprocessGo_raw all rest _ q h
      rw [h1, h2]
      simp [List.filter_cons, isRawAddition, isRawDeletion, heq]
    next heq =>
      obtain ⟨h1, h2⟩ := preprocessGo_raw all rest _ q h
      simp only [recordNeighbours] at h1 h2
      rw [h1, h2]
      simp [List.filter_cons, isRawAddition, isRawDeletion, heq]
    next heq =>
      obtain ⟨h1, h2⟩ := preprocessGo_raw all rest _ q h
      simp only [recordNeighbours] at h1 h2
      rw [h1, h2]
      simp [List.filter_cons, isRawAddition, isRawDeletion, heq]

/-- Filtering an enumerated list on a predicate of the entries and keeping a
projection of the entries forgets the numbering. -/
theorem enumFrom_filter_snd (P : Change → Bool) (f : Change → String) :
    ∀ (n : Nat) (l : List Change),
      ((List.enumFrom n l).filter (fun ic => P ic.2)).map (fun ic => f ic.2) =
        (l.filter P).map f
  | _, [] => rfl
  | n, c :: rest => by
    simp only [List.enumFrom, List.filter_cons]
    cases hP : P c <;> simp [enumFrom_filter_snd P f (n + 1) rest, hP]

/-- `preprocess` computes the raw addition and deletion texts of a change
list. -/
theorem preprocess_raw (changes : List Change) (q : Prep) (h : preprocess changes = .ok q) :
    q.raw_additions = (changes.filter isRawAddition).map Change.text ∧
    q.raw_deletions = (changes.filter isRawDeletion).map Change.text := by
  obtain ⟨h1, h2⟩ := preprocessGo_raw changes changes.enum _ q h
  simp only [List.enum] at h1 h2
  rw [h1, h2, enumFrom_filter_snd, enumFrom_filter_snd]
  simp

/-- An `ok` exit of the one-line scan is `(0,0)`, or `(1,0)` with a
nonempty addition list, or `(0,1)` with a nonempty deletion list. -/
theorem oneLineScan_ok_cases (adds dels : List String) (source : List String) :
    ∀ (fuel : Nat) (prev next : Option String) (index da dd : Nat),
      oneLineScan adds dels prev next source index fuel = .ok (da, dd) →
      (da = 0 ∧ dd = 0) ∨ (da = 1 ∧ dd = 0 ∧ adds ≠ []) ∨ (da = 0 ∧ dd = 1 ∧ dels ≠ [])
  | 0, prev, next, index, da, dd, h => by
    rw [oneLineScan] at h
    cases h
    exact Or.inl ⟨rfl, rfl⟩
  | fuel + 1, prev, next, index, da, dd, h => by
    rw [oneLineScan] at h
    cases prev with
    | none => simp at h
    | some p =>
      simp only [Option.elim] at h
      split at h
      case isTrue =>
        split at h
        case isTrue =>
          cases next with
          | none => simp at h
          | some nx =>
            simp only [Option.elim] at h
            split at h
            case isTrue =>
              split at h
              case isTrue hguard =>
                cases h
                refine Or.inr (Or.inl ⟨rfl, rfl, ?_⟩)
                intro hnil
                subst hnil
                simp at hguard
              case isFalse =>
                split at h
                case isTrue hguard =>
                  cases h
                  refine Or.inr (Or.inr ⟨rfl, rfl, ?_⟩)
                  intro hnil
                  subst hnil
                  simp at hguard
                case isFalse =>
                  exact oneLineScan_ok_cases adds dels source fuel (some p) (some nx) (index + 1) da dd h
            case isFalse =>
              exact oneLineScan_ok_cases adds dels source fuel (some p) (some nx) (index + 1) da dd h
        case isFalse =>
          exact oneLineScan_ok_cases adds dels source fuel (some p) next (index + 1) da dd h
      case isFalse =>
        exact oneLineScan_ok_cases adds dels source fuel (some p) next (index + 1) da dd h

/-- The only exception the one-line scan raises is the `None` dereference. -/
theorem oneLineScan_error_msg (adds dels : List String) (source : List String) :
    ∀ (fuel : Nat) (prev next : Option String) (index : Nat) (e : String),
      oneLineScan adds dels prev next source index fuel = .error e → e = "AttributeError"
  | 0, prev, next, index, e, h => by
    rw [oneLineScan] at h
    cases h
  | fuel + 1, prev, next, index, e, h => by
    rw [oneLineScan] at h
    cases prev with
    | none => simp only [Option.elim] at h; cases h; rfl
    | some p =>
      simp only [Option.elim] at h
      split at h
      case isTrue =>
        split at h
        case isTrue =>
          cases next with
          | none => simp only [Option.elim] at h; cases h; rfl
          | some nx =>
            simp only [Option.elim] at h
            split at h
            case isTrue =>
              split at h
              case isTrue => cases h
              case isFalse =>
                split at h
                case isTrue => cases h
                case isFalse =>
                  exact oneLineScan_error_msg adds dels source fuel (some p) (some nx) (index + 1) e h
            case isFalse =>
              exact oneLineScan_error_msg adds dels source fuel (some p) (some nx) (index + 1) e h
        case isFalse =>
          exact oneLineScan_error_msg adds dels source fuel (some p) next (index + 1) e h
      case isFalse =>
        exact oneLineScan_error_msg adds dels source fuel (some p) next (index + 1) e h

/-- The classification cascade raises only one message. -/
theorem classify_error_msg (c : Change) (e : String) (h : classify c = .error e) :
    e = "Could not detect change type" := by
  rw [classify] at h
  split_ifs at h
  all_goals cases h
  all_goals rfl

/-- The preprocessing loop raises only the classification message. -/
theorem preprocessGo_error_msg (all : List Change) :
    ∀ (l : List (Nat × Change)) (p : Prep) (e : String),
      preprocessGo all l p = .error e → e = "Could not detect change type"
  | [], p, e, h => by
    rw [preprocessGo] at h
    cases h
  | (index, c) :: rest, p, e, h => by
    rw [preprocessGo] at h
    split at h
    next =>
      rename_i heq
      cases h
      exact classify_error_msg c e heq
    next => exact preprocessGo_error_msg all rest _ e h
    next => exact preprocessGo_error_msg all rest _ e h
    next => exact preprocessGo_error_msg all rest _ e h

/-- With a single addition and no deletion, the one-line scan from position
`index` reports the addition detected exactly when some position at or after
`index` carries both stripped-equality anchors and a token-match of the
middle line. -/
theorem oneLineScan_singleAdd_iff (a p n : String) (source : List String) :
    ∀ (fuel index : Nat), index + fuel = source.length →
      (oneLineScan [a] [] (some p) (some n) source index fuel = .ok (1, 0) ↔
        ∃ j, index ≤ j ∧ j + 2 < source.length ∧
          pyStrip (source.getD j "") = pyStrip p ∧
          pyStrip (source.getD (j + 2) "") = pyStrip n ∧
          detector.compare a (source.getD (j + 1) "") = true)
  | 0, index, hlen => by
    rw [oneLineScan]
    constructor
    · intro h
      injection h with h2
      exact absurd h2 (by decide)
    · rintro ⟨j, hj, hj2, -⟩
      omega
  | fuel + 1, index, hlen => by
    rw [oneLineScan]
    simp only [Option.elim]
    have IH := oneLineScan_singleAdd_iff a p n source fuel (index + 1) (by omega)
    by_cases h1 : pyStrip (source.getD index "") = pyStrip p
    · rw [if_pos h1]
      by_cases h2 : index + 2 < source.length
      · rw [if_pos h2]
        by_cases h3 : pyStrip (source.getD (index + 2) "") = pyStrip n
        · rw [if_pos h3]
          have hconda : ((!List.isEmpty [a]) &&
              detector.compare ([a].headD "") (source.getD (index + 1) "")) =
              detector.compare a (source.getD (index + 1) "") := rfl
          have hcondd : (!(List.isEmpty ([] : List String)) &&
              !detector.compare (([] : List String).headD "") (source.getD (index + 1) "")) =
              false := rfl
          rw [hconda, hcondd]
          by_cases h4 : detector.compare a (source.getD (index + 1) "") = true
          · rw [if_pos h4]
            constructor
            · intro _
              exact ⟨index, le_refl _, h2, h1, h3, h4⟩
            · intro _
              rfl
          · rw [if_neg h4, if_neg (show ¬(false = true) by decide)]
            rw [IH]
            constructor
            · rintro ⟨j, hj, hrest⟩
              exact ⟨j, by omega, hrest⟩
            · rintro ⟨j, hj, hj2, hjp, hjn, hjc⟩
              have hne : j ≠ index := by
                rintro rfl
                exact h4 hjc
              exact ⟨j, by omega, hj2, hjp, hjn, hjc⟩
        · rw [if_neg h3, IH]
          constructor
          · rintro ⟨j, hj, hrest⟩
            exact ⟨j, by omega, hrest⟩
          · rintro ⟨j, hj, hj2, hjp, hjn, hjc⟩
            have hne : j ≠ index := by
              rintro rfl
              exact h3 hjn
            exact ⟨j, by omega, hj2, hjp, hjn, hjc⟩
      · rw [if_neg h2, IH]
        constructor
        · rintro ⟨j, hj, hrest⟩
          exact ⟨j, by omega, hrest⟩
        · rintro ⟨j, hj, hj2, hjp, hjn, hjc⟩
          have hne : j ≠ index := by
            rintro rfl
            exact h2 hj2
          exact ⟨j, by omega, hj2, hjp, hjn, hjc⟩
    · rw [if_neg h1, IH]
      constructor
      · rintro ⟨j, hj, hrest⟩
        exact ⟨j, by omega, hrest⟩
      · rintro ⟨j, hj, hj2, hjp, hjn, hjc⟩
        have hne : j ≠ index := by
          rintro rfl
          exact h1 hjp
        exact ⟨j, by omega, hj2, hjp, hjn, hjc⟩

/-- With a single deletion and no addition, the one-line scan from position
`index` reports the deletion detected exactly when some position at or after
`index` carries both stripped-equality anchors and a failing token-match of
the middle line. -/
theorem oneLineScan_singleDel_iff (d p n : String) (source : List String) :
    ∀ (fuel index : Nat), index + fuel = source.length →
      (oneLineScan [] [d] (some p) (some n) source index fuel = .ok (0, 1) ↔
        ∃ j, index ≤ j ∧ j + 2 < source.length ∧
          pyStrip (source.getD j "") = pyStrip p ∧
          pyStrip (source.getD (j + 2) "") = pyStrip n ∧
          detector.compare d (source.getD (j + 1) "") = false)
  | 0, index, hlen => by
    rw [oneLineScan]
    constructor
    · intro h
      injection h with h2
      exact absurd h2 (by decide)
    · rintro ⟨j, hj, hj2, -⟩
      omega
  | fuel + 1, index, hlen => by
    rw [oneLineScan]
    simp only [Option.elim]
    have IH := oneLineScan_singleDel_iff d p n source fuel (index + 1) (by omega)
    by_cases h1 : pyStrip (source.getD index "") = pyStrip p
    · rw [if_pos h1]
      by_cases h2 : index + 2 < source.length
      · rw [if_pos h2]
        by_cases h3 : pyStrip (source.getD (index + 2) "") = pyStrip n
        · rw [if_pos h3]
          have hconda : ((!List.isEmpty ([] : List String)) &&
              detector.compare (([] : List String).headD "") (source.getD (index + 1) "")) =
              false := rfl
          have hcondd : ((!List.isEmpty [d]) &&
              !detector.compare ([d].headD "") (source.getD (index + 1) "")) =
              !detector.compare d (source.getD (index + 1) "") := rfl
          rw [hconda, hcondd, if_neg (show ¬(false = true) by decide)]
          cases h4 : detector.compare d (source.getD (index + 1) "") with
          | false =>
            rw [if_pos (show (!false) = true from rfl)]
            constructor
            · intro _
              exact ⟨index, le_refl _, h2, h1, h3, h4⟩
            · intro _
              rfl
          | true =>
            rw [if_neg (show ¬((!true) = true) by decide), IH]
            constructor
            · rintro ⟨j, hj, hrest⟩
              exact ⟨j, by omega, hrest⟩
            · rintro ⟨j, hj, hj2, hjp, hjn, hjc⟩
              have hne : j ≠ index := by
                rintro rfl
                rw [h4] at hjc
                cases hjc
              exact ⟨j, by omega, hj2, hjp, hjn, hjc⟩
        · rw [if_neg h3, IH]
          constructor
          · rintro ⟨j, hj, hrest⟩
            exact ⟨j, by omega, hrest⟩
          · rintro ⟨j, hj, hj2, hjp, hjn, hjc⟩
            have hne : j ≠ index := by
              rintro rfl
              exact h3 hjn
            exact ⟨j, by omega, hj2, hjp, hjn, hjc⟩
      · rw [if_neg h2, IH]
        constructor
        · rintro ⟨j, hj, hrest⟩
          exact ⟨j, by omega, hrest⟩
        · rintro ⟨j, hj, hj2, hjp, hjn, hjc⟩
          have hne : j ≠ index := by
            rintro rfl
            exact h2 hj2
          exact ⟨j, by omega, hj2, hjp, hjn, hjc⟩
    · rw [if_neg h1, IH]
      constructor
      · rintro ⟨j, hj, hrest⟩
        exact ⟨j, by omega, hrest⟩
      · rintro ⟨j, hj, hj2, hjp, hjn, hjc⟩
        have hne : j ≠ index := by
          rintro rfl
          exact h1 hjp
        exact ⟨j, by omega, hj2, hjp, hjn, hjc⟩

/-- Reaching a version missing from the tags after versions that are all
present ends the whole loop in its error, whatever was accumulated. -/
theorem runGitGo_missing {R : Type} (tags : List String) (ev : String → R)
    (v : String) (post : List String) (hv : v ∉ tags) :
    ∀ (pre : List String) (acc : List (String × R)), (∀ u ∈ pre, u ∈ tags) →
      runGitGo tags ev (pre ++ v :: post) acc = .error ("No such version \"" ++ v ++ "\"")
  | [], acc, _ => by
    rw [List.nil_append, runGitGo, if_neg hv]
  | u :: pre, acc, hpre => by
    rw [List.cons_append, runGitGo, if_pos (hpre u (List.mem_cons_self u pre))]
    exact runGitGo_missing tags ev v post hv pre _ (fun w hw => hpre w (List.mem_cons_of_mem u hw))

/-! ## Claim theorems -/

/-- Claim C1 (code bug in the source): on a confident result with no
additions ratio and a deletions ratio of 3/10, under the default thresholds
(additions 1/2, deletions 1/4) the code marks the version vulnerable, even
though the deletions ratio is not below the deletions threshold — because
runner.py line 201 compares the deletions ratio against
`additions_threshold`.  Under the claim the verdict would be `patched`. -/
theorem deletions_compared_to_additions_threshold :
    determine_vulnerability_status (1/2) (1/4) ⟨none, some (3/10), true⟩ = .flag true ∧
    ¬ ((3 : ℚ)/10 < 1/4) ∧ ((3 : ℚ)/10 < 1/2) := by
  refine ⟨?_, by norm_num, by norm_num⟩
  rw [determine_vulnerability_status]
  norm_num

/-- Claim C2 counterexample: commits 1 and 2 of `repoCx` are unrelated
(neither is an ancestor of the other) and distinct, yet because path `f`
exists in the tree at the target, `resolve_path` short-circuits to status
`unchanged`, not `unknown`. -/
theorem resolve_path_unrelated_exists_cx :
    repoCx.is_ancestor 1 2 = false ∧ repoCx.is_ancestor 2 1 = false ∧
    resolve_path repoCx 1 2 "f" = .ok ("f", "unchanged") :=
  ⟨rfl, rfl, rfl⟩

/-- Claim C2 as amended: when the target is neither an ancestor nor a
descendant of the baseline, the target differs from the baseline, AND the
path does not exist in the tree at the target (with the path present at the
baseline and a creation commit found, so the preconditions hold),
`resolve_path` returns status `unknown` with the baseline's blob path. -/
theorem resolve_path_unrelated_unknown (repo : Repo) (first second : Nat) (path bp : String)
    (hne : first ≠ second)
    (htree2 : repo.tree second path = none)
    (htree1 : repo.tree first path = some bp)
    (hlog : (repo.log_added path).isEmpty = false)
    (hcc : ∃ cc, (repo.log_added path).foldl
        (fun acc r => if repo.is_ancestor r first then some r else acc) none = some cc)
    (hfwd : repo.is_ancestor first second = false)
    (hbwd : repo.is_ancestor second first = false) :
    resolve_path repo first second path = .ok (bp, "unknown") := by
  obtain ⟨cc, hcc⟩ := hcc
  rw [resolve_path, if_neg hne, htree2]
  simp only []
  rw [htree1]
  simp only []
  rw [hlog]
  simp only [Bool.false_eq_true, if_false]
  rw [hcc]
  simp only []
  rw [hfwd, hbwd]
  simp only [Bool.false_eq_true, if_false]

/-- Witness for the amended claim C2 at a concrete repository. -/
theorem resolve_path_unrelated_unknown_witness :
    resolve_path repoW 1 2 "f" = .ok ("f", "unknown") :=
  resolve_path_unrelated_unknown repoW 1 2 "f" "f" (by decide) rfl rfl rfl ⟨1, rfl⟩ rfl rfl

/-- Claim C3 counterexample: with tag `v1` present and `v2` absent, the run
over versions `[v1, v2]` ends in the raised `ValueError`; the result for
`v1`, already computed, is not preserved — no mapping is returned at all. -/
theorem run_git_missing_tag_aborts_cx :
    run_git ["v1"] (fun _ => (0 : Nat)) ["v1", "v2"] = .error "No such version \"v2\"" := rfl

/-- Claim C3 as amended: if the versions list contains a version missing
from the repository's tags (after versions that all exist), `run_git`
aborts the whole run with that version's `ValueError` message and discards
the per-version results computed so far, instead of continuing. -/
theorem run_git_missing_tag_aborts {R : Type} (tags : List String) (ev : String → R)
    (pre post : List String) (v : String)
    (hpre : ∀ u ∈ pre, u ∈ tags) (hv : v ∉ tags) :
    run_git tags ev (pre ++ v :: post) = .error ("No such version \"" ++ v ++ "\"") :=
  runGitGo_missing tags ev v post hv pre [] hpre

/-- Witness for the amended claim C3 at a concrete tag list. -/
theorem run_git_missing_tag_aborts_witness :
    run_git ["a"] (fun _ => (0 : Nat)) (["a"] ++ "b" :: ["c"]) =
      .error ("No such version \"" ++ "b" ++ "\"") :=
  run_git_missing_tag_aborts ["a"] (fun _ => (0 : Nat)) ["a"] ["c"] "b"
    (by intro u hu; simpa using hu) (by decide)

/-- Claim C4 counterexample: an eligible diff with one (move-filtered)
addition whose file is absent on disk records `total_additions = 1` (not 0)
and an additions ratio of `0` (defined, not null): absent files keep their
full filtered totals, which then flow into the aggregate sums. -/
theorem runFile_absent_file_nonzero_totals :
    runFile ⟨"f", "f", "unchanged", [⟨none, some 1, "added line"⟩]⟩ none =
      .ok { detected_additions := 0, detected_deletions := 0, total_additions := 1,
            total_deletions := 0, additions_ratio := some 0, deletions_ratio := none,
            status := "unchanged" } := by
  have h : runFile ⟨"f", "f", "unchanged", [⟨none, some 1, "added line"⟩]⟩ none =
      .ok { detected_additions := 0, detected_deletions := 0, total_additions := 1,
            total_deletions := 0, additions_ratio := some (((0:Nat) : ℚ) / ((1:Nat) : ℚ)),
            deletions_ratio := none, status := "unchanged" } := rfl
  rw [h]
  norm_num

/-- Claim C4 as amended: for every eligible diff whose file is absent on
disk, both detected counts are zero, but the recorded totals equal the
move-filtered addition/deletion counts of the diff (not zero), so each
ratio is `0` — defined, not null — whenever the corresponding total is
positive. -/
theorem runFile_absent_zero_detected (diff : FileDiff) (p : Prep)
    (h : preprocess diff.changes = .ok p) :
    runFile diff none = .ok
      { detected_additions := 0, detected_deletions := 0,
        total_additions := (filteredAdditions p).length,
        total_deletions := (filteredDeletions p).length,
        additions_ratio :=
          if 0 < (filteredAdditions p).length then some 0 else none,
        deletions_ratio :=
          if 0 < (filteredDeletions p).length then some 0 else none,
        status := diff.status } := by
  rw [runFile, h]
  simp only []
  rw [if_pos (Nat.zero_le _), if_pos (Nat.zero_le _)]
  norm_num

/-- Witness for the amended claim C4 at a concrete one-addition diff. -/
theorem runFile_absent_zero_detected_witness :
    runFile diffW none = .ok
      { detected_additions := 0, detected_deletions := 0,
        total_additions := (filteredAdditions prepW2).length,
        total_deletions := (filteredDeletions prepW2).length,
        additions_ratio :=
          if 0 < (filteredAdditions prepW2).length then some 0 else none,
        deletions_ratio :=
          if 0 < (filteredDeletions prepW2).length then some 0 else none,
        status := diffW.status } :=
  runFile_absent_zero_detected diffW prepW2 rfl

/-- Claim C5 counterexample: a diff with raw additions `a`, `b`, `x` and raw
deletion `x` leaves two additions and zero deletions after move-filtering,
so under the claim it is not a one-line change; yet the code computes
`one_line_change = true`, because it tests the RAW (pre-move-filter) counts
`3 == 1` XOR `1 == 1`. -/
theorem one_line_change_raw_counts_cx :
    preprocess [⟨none, some 1, "a"⟩, ⟨none, some 2, "b"⟩, ⟨none, some 3, "x"⟩,
        ⟨some 1, none, "x"⟩] =
      .ok ⟨["a", "b", "x"], ["x"], some "x", some "x"⟩ ∧
    one_line_change ⟨["a", "b", "x"], ["x"], some "x", some "x"⟩ = true ∧
    (filteredAdditions ⟨["a", "b", "x"], ["x"], some "x", some "x"⟩).length = 2 ∧
    (filteredDeletions ⟨["a", "b", "x"], ["x"], some "x", some "x"⟩).length = 0 :=
  ⟨rfl, rfl, rfl, rfl⟩

/-- Claim C5 as amended: `one_line_change` holds iff exactly one raw
addition XOR exactly one raw deletion remains after discarding blank,
unchanged and renumbered-identical lines — BEFORE the move-filter that
removes lines present verbatim in both sets. -/
theorem one_line_change_raw_counts (changes : List Change) (q : Prep)
    (h : preprocess changes = .ok q) :
    one_line_change q =
      (((changes.filter isRawAddition).length == 1) ^^
        ((changes.filter isRawDeletion).length == 1)) := by
  obtain ⟨h1, h2⟩ := preprocess_raw changes q h
  rw [one_line_change, h1, h2]
  simp

/-- Witness for the amended claim C5 at a concrete two-insertion diff. -/
theorem one_line_change_raw_counts_witness :
    one_line_change prepW =
      (((changesW.filter isRawAddition).length == 1) ^^
        ((changesW.filter isRawDeletion).length == 1)) :=
  one_line_change_raw_counts changesW prepW rfl

/-- Claim C6 counterexample: on a source where the before-context line `a b`
token-matches file line `a b c` but is not equal to it after stripping, the
code's scan (stripped string equality anchors) finds no anchor and returns
`(0, 0)`, while the claim's token-match anchors (the clearly marked
spec-modelled variant `detectOneLineSpec`) would detect the addition and
return `(1, 0)`. -/
theorem one_line_anchor_strip_equality_cx :
    detectOneLine ["z w"] [] (some "a b") (some "d") ["a b c", "zq z w", "d"] = .ok (0, 0) ∧
    detectOneLineSpec ["z w"] [] (some "a b") (some "d") ["a b c", "zq z w", "d"] = .ok (1, 0) ∧
    detector.compare "a b" "a b c" = true ∧
    detector.compare "d" "d" = true ∧
    detector.compare "z w" "zq z w" = true :=
  ⟨rfl, rfl, by decide, by decide, by decide⟩

/-- Claim C6 as amended: the anchor position is found by exact
whitespace-stripped string equality of line `i` with the before-context and
line `i+2` with the after-context (NOT by the token-containment match),
while the judgment of line `i+1` does use the token-containment match: a
single addition is detected iff some anchored position token-matches it, a
single deletion is detected iff some anchored position fails to token-match
it. -/
theorem one_line_anchor_characterization (a d p n : String) (src : List String) :
    (detectOneLine [a] [] (some p) (some n) src = .ok (1, 0) ↔
      ∃ j, j + 2 < src.length ∧ pyStrip (src.getD j "") = pyStrip p ∧
        pyStrip (src.getD (j + 2) "") = pyStrip n ∧
        detector.compare a (src.getD (j + 1) "") = true) ∧
    (detectOneLine [] [d] (some p) (some n) src = .ok (0, 1) ↔
      ∃ j, j + 2 < src.length ∧ pyStrip (src.getD j "") = pyStrip p ∧
        pyStrip (src.getD (j + 2) "") = pyStrip n ∧
        detector.compare d (src.getD (j + 1) "") = false) := by
  constructor
  · rw [detectOneLine, oneLineScan_singleAdd_iff a p n src src.length 0 (by omega)]
    simp [Nat.zero_le]
  · rw [detectOneLine, oneLineScan_singleDel_iff d p n src src.length 0 (by omega)]
    simp [Nat.zero_le]

/-- Claim C7 counterexample: the claim asserts that
`match("return x + 1", "    return   x+1;  // fix")` is true, but the code
splits on whitespace only, so the token `x` of the patch line does not occur
among the tokens `return`, `x+1;`, `//`, `fix` of the file line, and
`compare` returns false. -/
theorem compare_return_line_not_true :
    ¬ (detector.compare "return x + 1" "    return   x+1;  // fix" = true) := by
  decide

/-- Claim C7 as amended: on the claim's concrete pair of lines, the
token-containment match returns false (whitespace-only splitting keeps
`x+1;` as one token, which the patch tokens `x`, `+`, `1` do not equal). -/
theorem compare_return_line_false :
    detector.compare "return x + 1" "    return   x+1;  // fix" = false := by
  decide

/-- Claim C8 (confirmed): `detector.compare p f` is true iff every
whitespace-delimited token of `p` appears among the whitespace-delimited
tokens of `f`: an order-independent, duplicate-ignoring subset test on the
two token sets, taken after stripping surrounding whitespace. -/
theorem compare_iff_token_subset (p f : String) :
    detector.compare p f = true ↔ (lineTokens p).toFinset ⊆ (lineTokens f).toFinset := by
  simp only [detector.compare, lineTokens, List.all_eq_true, decide_eq_true_eq]
  constructor
  · intro h t ht
    rw [List.mem_toFinset] at ht ⊢
    exact h t ht
  · intro h t ht
    have := h (List.mem_toFinset.mpr ht)
    exact List.mem_toFinset.mp this

/-- Witness for claim C8 at a concrete pair of lines. -/
theorem compare_iff_token_subset_witness :
    detector.compare "a  b" "b c a" = true :=
  (compare_iff_token_subset "a  b" "b c a").mpr (by decide)

/-- Claim C9 (confirmed): for every diff and file content, the detection
result satisfies `detected_additions ≤ total_additions` and
`detected_deletions ≤ total_deletions`, and `runFile` never ends in the
`AssertionError` of the two guarding asserts — a violation would abort the
file's detection, but none is reachable. -/
theorem runFile_detected_le_total (diff : FileDiff) (content : Option (List String)) :
    runFile diff content ≠ .error "AssertionError" ∧
    ∀ r, runFile diff content = .ok r →
      r.detected_additions ≤ r.total_additions ∧ r.detected_deletions ≤ r.total_deletions := by
  rw [runFile]
  cases hp : preprocess diff.changes with
  | error e =>
    have he : e = "Could not detect change type" := preprocessGo_error_msg _ _ _ e hp
    subst he
    constructor
    · intro hfalse
      exact absurd (Except.error.inj hfalse) (by decide)
    · intro r hr
      cases hr
  | ok p =>
    simp only []
    cases hc : (match content with
      | some source =>
        if one_line_change p then
          detectOneLine (filteredAdditions p) (filteredDeletions p) p.prev_line p.next_line source
        else .ok (detectGeneral (filteredAdditions p) (filteredDeletions p) source)
      | none => .ok ((0 : Nat), (0 : Nat))) with
    | error e =>
      have he : e = "AttributeError" := by
        cases content with
        | none => cases hc
        | some source =>
          simp only at hc
          split at hc
          · exact oneLineScan_error_msg _ _ _ _ _ _ _ e hc
          · cases hc
      subst he
      simp only []
      constructor
      · intro hfalse
        exact absurd (Except.error.inj hfalse) (by decide)
      · intro r hr
        cases hr
    | ok counts =>
      obtain ⟨da, dd⟩ := counts
      have hb : da ≤ (filteredAdditions p).length ∧ dd ≤ (filteredDeletions p).length := by
        cases content with
        | none =>
          cases hc
          exact ⟨Nat.zero_le _, Nat.zero_le _⟩
        | some source =>
          simp only at hc
          split at hc
          · rcases oneLineScan_ok_cases _ _ _ _ _ _ _ _ _ hc with
              ⟨h1, h2⟩ | ⟨h1, h2, h3⟩ | ⟨h1, h2, h3⟩
            · subst h1; subst h2; exact ⟨Nat.zero_le _, Nat.zero_le _⟩
            · subst h1; subst h2
              exact ⟨List.length_pos.mpr h3, Nat.zero_le _⟩
            · subst h1; subst h2
              exact ⟨Nat.zero_le _, List.length_pos.mpr h3⟩
          · cases hc
            exact ⟨List.countP_le_length _, List.countP_le_length _⟩
      obtain ⟨h1, h2⟩ := hb
      simp only []
      rw [if_pos h1, if_pos h2]
      constructor
      · intro hfalse
        cases hfalse
      · intro r hr
        cases hr
        exact ⟨h1, h2⟩

/-- Witness for claim C9 at a concrete diff whose file is absent. -/
theorem runFile_detected_le_total_witness :
    fileResultW.detected_additions ≤ fileResultW.total_additions ∧
    fileResultW.detected_deletions ≤ fileResultW.total_deletions :=
  (runFile_detected_le_total ⟨"w", "w", "unchanged", [⟨none, some 1, "wline"⟩]⟩ none).2
    fileResultW rfl

/-- Claim C10 (confirmed): for a file diff whose single non-blank changed
line is the first entry of its changes list, no before-context is recorded
(`prev_line` stays `None`); with the target file present on disk the
one-line scan dereferences it and detection raises an `AttributeError`
instead of returning a DetectionResult. -/
theorem runFile_first_change_attribute_error :
    runFile ⟨"f", "f", "unchanged", [⟨none, some 1, "x = 1"⟩]⟩ (some ["a line"]) =
      .error "AttributeError" := by
  rfl
